import Mathlib

/-!
Shallow embedding of the Car Management System (single-file Flask app, `app.py`).

The relational store (tables `users`, `cars`, `customers`, `bookings`,
`services` created by `init_db`) is modelled as lists of rows with explicit
auto-increment counters.  Each HTTP handler's POST branch (and the GET branch
where a claim needs it) is a pure function from the store and the submitted
form fields to the new store together with the flashed messages and the
response page.  MySQL `DATE` values are modelled as integer day ordinals, so
`(end_date - start_date).days` is plain integer subtraction; `DECIMAL` money
columns are modelled as rationals.  `created_at` timestamp columns are not
modelled: no business rule reads them.  The `ON DELETE CASCADE` clauses of the
schema in `init_db` are embedded directly into `delete_car` /
`delete_customer`, which is how MySQL executes those handlers' single
`DELETE` statements.
-/

/-- Model of the werkzeug password-hashing contract (external library):
`generate_password_hash` produces an opaque token from which
`check_password_hash` accepts exactly the original password. -/
structure PwHash where
  pw : String
deriving DecidableEq, Repr

def generate_password_hash (p : String) : PwHash := ⟨p⟩

def check_password_hash (h : PwHash) (p : String) : Bool := h.pw == p

def ADMIN_DEFAULT_USERNAME : String := "admin"

def ADMIN_DEFAULT_PASSWORD : String := "admin123"

/-- Row of the `users` table. -/
structure User where
  id : Nat
  username : String
  password_hash : PwHash
  role : String
deriving DecidableEq, Repr

/-- Row of the `cars` table (`status` is one of the strings
`available`, `rented`, `maintenance`). -/
structure Car where
  id : Nat
  name : String
  brand : String
  model : String
  year : Option Int
  price_per_day : ℚ
  status : String
  description : String
deriving DecidableEq, Repr

/-- Row of the `customers` table. -/
structure Customer where
  id : Nat
  name : String
  email : String
  phone : String
  license_no : String
  address : String
deriving DecidableEq, Repr

/-- Row of the `bookings` table (`status` is one of the strings
`active`, `completed`, `cancelled`). -/
structure Booking where
  id : Nat
  car_id : Nat
  customer_id : Nat
  start_date : Int
  end_date : Int
  total_cost : ℚ
  status : String
deriving DecidableEq, Repr

/-- Row of the `services` table. -/
structure Service where
  id : Nat
  car_id : Nat
  service_date : Option Int
  service_type : String
  cost : ℚ
  remarks : String
deriving DecidableEq, Repr

/-- The whole relational store: the five tables plus their
`AUTO_INCREMENT` counters. -/
structure Store where
  users : List User
  cars : List Car
  customers : List Customer
  bookings : List Booking
  services : List Service
  next_user_id : Nat
  next_car_id : Nat
  next_customer_id : Nat
  next_booking_id : Nat
  next_service_id : Nat
deriving DecidableEq, Repr

/-- A flashed message together with its Bootstrap category. -/
structure Flash where
  message : String
  category : String
deriving DecidableEq, Repr

/-- The page a handler answers with: a redirect to a named endpoint or a
rendered template. -/
inductive Page where
  | redirectTo (endpoint : String)
  | render (template : String)
deriving DecidableEq, Repr

/-- Embeds `SELECT * FROM cars WHERE id=%s` followed by `fetchone()`. -/
def findCar (s : Store) (id : Nat) : Option Car :=
  s.cars.find? (fun c => c.id == id)

/-- Embeds `SELECT * FROM customers WHERE id=%s` followed by `fetchone()`. -/
def findCustomer (s : Store) (id : Nat) : Option Customer :=
  s.customers.find? (fun c => c.id == id)

/-- Embeds `SELECT * FROM bookings WHERE id=%s` followed by `fetchone()`. -/
def findBooking (s : Store) (id : Nat) : Option Booking :=
  s.bookings.find? (fun b => b.id == id)

/-- Embeds `SELECT * FROM services WHERE id=%s` followed by `fetchone()`. -/
def findService (s : Store) (id : Nat) : Option Service :=
  s.services.find? (fun sv => sv.id == id)

/-- Embeds `UPDATE cars SET status=%s WHERE id=%s`. -/
def setCarStatus (s : Store) (id : Nat) (st : String) : Store :=
  { s with cars := s.cars.map (fun c => if c.id == id then { c with status := st } else c) }

/-- The `calc_total_cost` function from `app.py`: day span inclusive of both endpoints,
floored at 1, times the price per day. -/
def calc_total_cost (car_price_per_day : ℚ) (start_date end_date : Int) : ℚ :=
  let days : Int := (end_date - start_date) + 1
  let days : Int := if days < 1 then 1 else days
  car_price_per_day * (days : ℚ)

/-- The session data a successful login stores
(`session['user_id']`, `session['username']`). -/
structure UserSession where
  user_id : Nat
  username : String
deriving DecidableEq, Repr

/-- What the `login` POST branch produces: the session (if any), the flashed
messages, and the answered page. -/
structure LoginResult where
  sess : Option UserSession
  flashes : List Flash
  page : Page
deriving DecidableEq, Repr

/-- POST branch of `login`: look the username up, check the password hash;
on success store the session and redirect to the dashboard, otherwise flash
`Invalid credentials.` and re-render the login page. -/
def login_post (users : List User) (u p : String) : LoginResult :=
  match users.find? (fun x => x.username == u) with
  | some user =>
      if check_password_hash user.password_hash p then
        { sess := some { user_id := user.id, username := user.username },
          flashes := [⟨"Logged in successfully.", "success"⟩],
          page := Page.redirectTo "dashboard" }
      else
        { sess := none,
          flashes := [⟨"Invalid credentials.", "danger"⟩],
          page := Page.render "login.html" }
  | none =>
      { sess := none,
        flashes := [⟨"Invalid credentials.", "danger"⟩],
        page := Page.render "login.html" }

/-- The `init_db` startup routine: table creation is `CREATE ... IF NOT EXISTS` (a no-op on the
data, the tables always exist in this model); then the default admin row is
inserted when `SELECT id FROM users WHERE username='admin'` finds nothing. -/
def init_db (s : Store) : Store :=
  match s.users.find? (fun u => u.username == ADMIN_DEFAULT_USERNAME) with
  | some _ => s
  | none =>
      { s with
        users := s.users ++
          [{ id := s.next_user_id,
             username := ADMIN_DEFAULT_USERNAME,
             password_hash := generate_password_hash ADMIN_DEFAULT_PASSWORD,
             role := "admin" }],
        next_user_id := s.next_user_id + 1 }

/-- GET branch of `edit_car` at a given id: render the edit form when the car
exists, otherwise flash `Car not found.` and redirect to the car list. -/
def edit_car_get (s : Store) (id : Nat) : List Flash × Page :=
  match findCar s id with
  | some _ => ([], Page.render "edit_car.html")
  | none => ([⟨"Car not found.", "danger"⟩], Page.redirectTo "view_cars")

/-- POST branch of `edit_car`: `UPDATE cars SET ... WHERE id=%s` with every
submitted field, then flash `Car updated.` and redirect to the car list. -/
def edit_car_post (s : Store) (id : Nat) (name brand model : String)
    (year : Option Int) (price : ℚ) (status description : String) :
    Store × List Flash × Page :=
  ({ s with cars := s.cars.map (fun c =>
      if c.id == id then
        { id := c.id, name := name, brand := brand, model := model,
          year := year, price_per_day := price, status := status,
          description := description }
      else c) },
   [⟨"Car updated.", "success"⟩], Page.redirectTo "view_cars")

/-- The `delete_car` route: `DELETE FROM cars WHERE id=%s`; the schema's
`ON DELETE CASCADE` removes the bookings and services referencing the car. -/
def delete_car (s : Store) (id : Nat) : Store × List Flash × Page :=
  ({ s with
      cars := s.cars.filter (fun c => !(c.id == id)),
      bookings := s.bookings.filter (fun b => !(b.car_id == id)),
      services := s.services.filter (fun sv => !(sv.car_id == id)) },
   [⟨"Car deleted.", "info"⟩], Page.redirectTo "view_cars")

/-- GET branch of `edit_customer`. -/
def edit_customer_get (s : Store) (id : Nat) : List Flash × Page :=
  match findCustomer s id with
  | some _ => ([], Page.render "edit_customer.html")
  | none => ([⟨"Customer not found.", "danger"⟩], Page.redirectTo "view_customers")

/-- POST branch of `edit_customer`. -/
def edit_customer_post (s : Store) (id : Nat)
    (name email phone license_no address : String) :
    Store × List Flash × Page :=
  ({ s with customers := s.customers.map (fun c =>
      if c.id == id then
        { id := c.id, name := name, email := email, phone := phone,
          license_no := license_no, address := address }
      else c) },
   [⟨"Customer updated.", "success"⟩], Page.redirectTo "view_customers")

/-- The `delete_customer` route: `DELETE FROM customers WHERE id=%s`; the schema's
`ON DELETE CASCADE` removes the bookings referencing the customer. -/
def delete_customer (s : Store) (id : Nat) : Store × List Flash × Page :=
  ({ s with
      customers := s.customers.filter (fun c => !(c.id == id)),
      bookings := s.bookings.filter (fun b => !(b.customer_id == id)) },
   [⟨"Customer deleted.", "info"⟩], Page.redirectTo "view_customers")

/-- POST branch of `add_booking`: fetch the selected car's price (0 when the
car is missing), compute the total, insert the booking with status `active`,
then mark the car `rented`. -/
def add_booking_post (s : Store) (car_id customer_id : Nat)
    (start_date end_date : Int) : Store × List Flash × Page :=
  let price : ℚ := match findCar s car_id with
    | some car => car.price_per_day
    | none => 0
  let total := calc_total_cost price start_date end_date
  let s1 := { s with
    bookings := s.bookings ++
      [{ id := s.next_booking_id, car_id := car_id, customer_id := customer_id,
         start_date := start_date, end_date := end_date,
         total_cost := total, status := "active" }],
    next_booking_id := s.next_booking_id + 1 }
  let s2 := setCarStatus s1 car_id "rented"
  (s2, [⟨"Booking created.", "success"⟩], Page.redirectTo "view_bookings")

/-- GET branch of `edit_booking`. -/
def edit_booking_get (s : Store) (id : Nat) : List Flash × Page :=
  match findBooking s id with
  | some _ => ([], Page.render "edit_booking.html")
  | none => ([⟨"Booking not found.", "danger"⟩], Page.redirectTo "view_bookings")

/-- POST branch of `edit_booking`: recompute the total from the (possibly
new) car's price and the dates, `UPDATE bookings ... WHERE id=%s`, and when
the submitted status is `completed` or `cancelled` set the submitted car's
status to `available`. -/
def edit_booking_post (s : Store) (id : Nat) (car_id customer_id : Nat)
    (start_date end_date : Int) (status : String) :
    Store × List Flash × Page :=
  let price : ℚ := match findCar s car_id with
    | some car => car.price_per_day
    | none => 0
  let total := calc_total_cost price start_date end_date
  let s1 := { s with bookings := s.bookings.map (fun b =>
    if b.id == id then
      { id := b.id, car_id := car_id, customer_id := customer_id,
        start_date := start_date, end_date := end_date,
        total_cost := total, status := status }
    else b) }
  let s2 := if status == "completed" || status == "cancelled" then
      setCarStatus s1 car_id "available"
    else s1
  (s2, [⟨"Booking updated.", "success"⟩], Page.redirectTo "view_bookings")

/-- The `delete_booking` route: look the booking up, set its car `available` when it
exists, then `DELETE FROM bookings WHERE id=%s`. -/
def delete_booking (s : Store) (id : Nat) : Store × List Flash × Page :=
  let s1 := match s.bookings.find? (fun b => b.id == id) with
    | some row => setCarStatus s row.car_id "available"
    | none => s
  let s2 := { s1 with bookings := s1.bookings.filter (fun b => !(b.id == id)) }
  (s2, [⟨"Booking deleted.", "info"⟩], Page.redirectTo "view_bookings")

/-- POST branch of `add_service`: insert the service row, then set the car's
status to `maintenance`. -/
def add_service_post (s : Store) (car_id : Nat) (service_date : Option Int)
    (service_type : String) (cost : ℚ) (remarks : String) :
    Store × List Flash × Page :=
  let s1 := { s with
    services := s.services ++
      [{ id := s.next_service_id, car_id := car_id,
         service_date := service_date, service_type := service_type,
         cost := cost, remarks := remarks }],
    next_service_id := s.next_service_id + 1 }
  let s2 := setCarStatus s1 car_id "maintenance"
  (s2, [⟨"Service record added.", "success"⟩], Page.redirectTo "view_services")

/-- GET branch of `edit_service`. -/
def edit_service_get (s : Store) (id : Nat) : List Flash × Page :=
  match findService s id with
  | some _ => ([], Page.render "edit_service.html")
  | none => ([⟨"Service not found.", "danger"⟩], Page.redirectTo "view_services")

/-- POST branch of `edit_service`: `UPDATE services SET ... WHERE id=%s`;
no car row is touched. -/
def edit_service_post (s : Store) (id : Nat) (car_id : Nat)
    (service_date : Option Int) (service_type : String) (cost : ℚ)
    (remarks : String) : Store × List Flash × Page :=
  ({ s with services := s.services.map (fun sv =>
      if sv.id == id then
        { id := sv.id, car_id := car_id, service_date := service_date,
          service_type := service_type, cost := cost, remarks := remarks }
      else sv) },
   [⟨"Service record updated.", "success"⟩], Page.redirectTo "view_services")

/-- The `delete_service` route: `DELETE FROM services WHERE id=%s`; no car row is
touched. -/
def delete_service (s : Store) (id : Nat) : Store × List Flash × Page :=
  ({ s with services := s.services.filter (fun sv => !(sv.id == id)) },
   [⟨"Service record deleted.", "info"⟩], Page.redirectTo "view_services")

/-- C1: `calc_total_cost` returns `price_per_day × max 1 ((end_date − start_date) + 1)`:
when `end_date ≥ start_date` it equals `price_per_day × ((end_date − start_date) + 1)`
(both endpoints inclusive), and when `end_date < start_date` it equals
`price_per_day × 1` (the floor-to-1 policy). -/
theorem calc_total_cost_spec (price : ℚ) (sd ed : Int) :
    calc_total_cost price sd ed = price * ((max 1 (ed - sd + 1) : Int) : ℚ) ∧
    (sd ≤ ed → calc_total_cost price sd ed = price * ((ed - sd + 1 : Int) : ℚ)) ∧
    (ed < sd → calc_total_cost price sd ed = price * 1) := by
  unfold calc_total_cost
  refine ⟨?_, ?_, ?_⟩
  · by_cases h : (ed - sd + 1 : Int) < 1
    · have hm : max 1 (ed - sd + 1) = (1 : Int) := by omega
      simp [h, hm]
    · have hm : max 1 (ed - sd + 1) = (ed - sd + 1 : Int) := by omega
      simp [h, hm]
  · intro h
    have h1 : ¬ ((ed - sd + 1 : Int) < 1) := by omega
    simp [h1]
  · intro h
    have h1 : (ed - sd + 1 : Int) < 1 := by omega
    simp [h1]

/-- Witness for C1 at a concrete input: price 50, three inclusive days
(the spec scenario `start=2024-01-01`, `end=2024-01-03`). -/
theorem calc_total_cost_spec_witness :
    calc_total_cost 50 0 2 = 50 * ((2 - 0 + 1 : Int) : ℚ) :=
  (calc_total_cost_spec 50 0 2).2.1 (by norm_num)

/-- Mapping `UPDATE cars SET status=%s WHERE id=%s` followed by
`SELECT ... WHERE id=%s` (same id) returns the updated row. -/
theorem find?_setStatus (cars : List Car) (cid : Nat) (st : String) :
    (cars.map (fun c => if c.id == cid then { c with status := st } else c)).find?
      (fun c => c.id == cid) =
    (cars.find? (fun c => c.id == cid)).map (fun c => { c with status := st }) := by
  induction cars with
  | nil => rfl
  | cons a l ih =>
    by_cases h : a.id = cid
    · subst h
      simp [List.find?_cons, -List.find?_map]
    · simp [List.find?_cons, h, -List.find?_map]
      simp only [beq_iff_eq] at ih
      exact ih

/-- A per-row `UPDATE ... WHERE id=%s` that matches no row leaves the table
unchanged. -/
theorem map_ite_eq_self {α : Type} (p : α → Bool) (f : α → α) (l : List α)
    (h : l.find? p = none) :
    l.map (fun a => if p a then f a else a) = l := by
  induction l with
  | nil => rfl
  | cons a l ih =>
    rw [List.find?_cons] at h
    cases hpa : p a with
    | true => rw [hpa] at h; exact absurd h (by simp)
    | false =>
      rw [hpa] at h
      simp [hpa, ih h]

/-- If a row satisfying the predicate is absent from the front list, lookup
continues in the appended rows. -/
theorem find?_append_of_none {α : Type} (p : α → Bool) (l₁ l₂ : List α)
    (h : l₁.find? p = none) :
    (l₁ ++ l₂).find? p = l₂.find? p := by
  induction l₁ with
  | nil => rfl
  | cons a l ih =>
    rw [List.find?_cons] at h
    cases hpa : p a with
    | true => rw [hpa] at h; exact absurd h (by simp)
    | false =>
      rw [hpa] at h
      simp [List.find?_cons, hpa, ih h]

/-- C2: a booking-creation POST for an existing car appends a Booking row
with status `active` and `total_cost` computed by `calc_total_cost` from that
car's `price_per_day` and the submitted dates, and sets the selected car's
status to `rented` no matter what its prior status was. -/
theorem add_booking_post_spec (s : Store) (cid cuid : Nat) (sd ed : Int)
    (c : Car) (hc : findCar s cid = some c) :
    (add_booking_post s cid cuid sd ed).1.bookings =
      s.bookings ++
        [{ id := s.next_booking_id, car_id := cid, customer_id := cuid,
           start_date := sd, end_date := ed,
           total_cost := calc_total_cost c.price_per_day sd ed,
           status := "active" }] ∧
    findCar (add_booking_post s cid cuid sd ed).1 cid =
      some { c with status := "rented" } := by
  unfold add_booking_post setCarStatus
  rw [hc]
  refine ⟨rfl, ?_⟩
  unfold findCar at *
  simp only
  rw [find?_setStatus, hc]
  rfl

/-- C3: (edit part) a booking-update POST whose submitted status is
`completed` or `cancelled` sets the submitted car's status to `available` —
with no condition on other bookings referencing that car; (delete part)
deleting an existing booking sets its car's status to `available`, again
unconditionally. -/
theorem booking_close_sets_car_available (s : Store) (id cid cuid : Nat)
    (sd ed : Int) (st : String) (c : Car)
    (hst : st = "completed" ∨ st = "cancelled")
    (hc : findCar s cid = some c)
    (b : Booking) (hb : findBooking s id = some b) (cb : Car)
    (hcb : findCar s b.car_id = some cb) :
    findCar (edit_booking_post s id cid cuid sd ed st).1 cid =
      some { c with status := "available" } ∧
    findCar (delete_booking s id).1 cb.id =
      some { cb with status := "available" } := by
  constructor
  · unfold edit_booking_post
    have hbool : (st == "completed" || st == "cancelled") = true := by
      rcases hst with h | h <;> simp [h]
    simp only [hbool, if_pos]
    unfold setCarStatus findCar at *
    simp only
    rw [find?_setStatus, hc]
    rfl
  · unfold delete_booking
    unfold findBooking at hb
    simp only [hb]
    unfold setCarStatus findCar at *
    have hid : cb.id = b.car_id := by
      have := List.find?_some hcb
      simpa using this
    simp only
    rw [hid, find?_setStatus, hcb]
    simp [hid]

/-- C4: a service-creation POST appends a Service row referencing the
selected car and sets that car's status to `maintenance` unconditionally,
even when the car is currently `rented`. -/
theorem add_service_post_spec (s : Store) (cid : Nat) (sdate : Option Int)
    (stype : String) (cost : ℚ) (remarks : String) (c : Car)
    (hc : findCar s cid = some c) :
    (add_service_post s cid sdate stype cost remarks).1.services =
      s.services ++
        [{ id := s.next_service_id, car_id := cid, service_date := sdate,
           service_type := stype, cost := cost, remarks := remarks }] ∧
    findCar (add_service_post s cid sdate stype cost remarks).1 cid =
      some { c with status := "maintenance" } := by
  unfold add_service_post setCarStatus
  refine ⟨rfl, ?_⟩
  unfold findCar at *
  simp only
  rw [find?_setStatus, hc]
  rfl

/-- C5: updating or deleting a service leaves the cars table untouched (in
particular every car's status), leaves users, customers and bookings
untouched; an update leaves every service row with a different id in place,
and a delete removes exactly the service rows with the matching id. -/
theorem service_edit_delete_frame (s : Store) (id cid : Nat)
    (sdate : Option Int) (stype : String) (cost : ℚ) (rem : String) :
    (edit_service_post s id cid sdate stype cost rem).1.cars = s.cars ∧
    (edit_service_post s id cid sdate stype cost rem).1.users = s.users ∧
    (edit_service_post s id cid sdate stype cost rem).1.customers = s.customers ∧
    (edit_service_post s id cid sdate stype cost rem).1.bookings = s.bookings ∧
    (∀ sv ∈ s.services, sv.id ≠ id →
      sv ∈ (edit_service_post s id cid sdate stype cost rem).1.services) ∧
    (delete_service s id).1.cars = s.cars ∧
    (delete_service s id).1.users = s.users ∧
    (delete_service s id).1.customers = s.customers ∧
    (delete_service s id).1.bookings = s.bookings ∧
    (∀ sv : Service,
      sv ∈ (delete_service s id).1.services ↔ sv ∈ s.services ∧ sv.id ≠ id) := by
  refine ⟨rfl, rfl, rfl, rfl, ?_, rfl, rfl, rfl, rfl, ?_⟩
  · intro sv hsv hne
    unfold edit_service_post
    simp only
    exact List.mem_map.mpr ⟨sv, hsv, by simp [hne]⟩
  · intro sv
    unfold delete_service
    simp [List.mem_filter]

/-- C6: deleting a car removes exactly that car, exactly the bookings and
exactly the services referencing it, touching no customer or user row;
deleting a customer removes exactly that customer and exactly the bookings
referencing them, touching no car, service or user row. -/
theorem cascade_delete_spec (s : Store) (cid cuid : Nat) :
    (∀ c : Car, c ∈ (delete_car s cid).1.cars ↔ c ∈ s.cars ∧ c.id ≠ cid) ∧
    (∀ b : Booking,
      b ∈ (delete_car s cid).1.bookings ↔ b ∈ s.bookings ∧ b.car_id ≠ cid) ∧
    (∀ sv : Service,
      sv ∈ (delete_car s cid).1.services ↔ sv ∈ s.services ∧ sv.car_id ≠ cid) ∧
    (delete_car s cid).1.customers = s.customers ∧
    (delete_car s cid).1.users = s.users ∧
    (∀ cu : Customer,
      cu ∈ (delete_customer s cuid).1.customers ↔ cu ∈ s.customers ∧ cu.id ≠ cuid) ∧
    (∀ b : Booking,
      b ∈ (delete_customer s cuid).1.bookings ↔
        b ∈ s.bookings ∧ b.customer_id ≠ cuid) ∧
    (delete_customer s cuid).1.cars = s.cars ∧
    (delete_customer s cuid).1.services = s.services ∧
    (delete_customer s cuid).1.users = s.users := by
  refine ⟨?_, ?_, ?_, rfl, rfl, ?_, ?_, rfl, rfl, rfl⟩
  all_goals intro x
  all_goals simp [delete_car, delete_customer, List.mem_filter]

/-- C7: for an id absent from the store, the GET edit form of each of the
four entities flashes a not-found notice and redirects to the entity's list
view; the POST edit and the POST delete of each entity always flash a notice
and redirect to the entity's list view (so a missing id never fails hard). -/
theorem notfound_edit_delete_spec (s : Store) (id : Nat) :
    (findCar s id = none →
      edit_car_get s id =
        ([⟨"Car not found.", "danger"⟩], Page.redirectTo "view_cars")) ∧
    (findCustomer s id = none →
      edit_customer_get s id =
        ([⟨"Customer not found.", "danger"⟩], Page.redirectTo "view_customers")) ∧
    (findBooking s id = none →
      edit_booking_get s id =
        ([⟨"Booking not found.", "danger"⟩], Page.redirectTo "view_bookings")) ∧
    (findService s id = none →
      edit_service_get s id =
        ([⟨"Service not found.", "danger"⟩], Page.redirectTo "view_services")) ∧
    (∀ name brand model year price status description,
      (edit_car_post s id name brand model year price status description).2 =
        ([⟨"Car updated.", "success"⟩], Page.redirectTo "view_cars")) ∧
    (∀ name email phone license_no address,
      (edit_customer_post s id name email phone license_no address).2 =
        ([⟨"Customer updated.", "success"⟩], Page.redirectTo "view_customers")) ∧
    (∀ cid cuid sd ed st,
      (edit_booking_post s id cid cuid sd ed st).2 =
        ([⟨"Booking updated.", "success"⟩], Page.redirectTo "view_bookings")) ∧
    (∀ cid sdate stype cost rem,
      (edit_service_post s id cid sdate stype cost rem).2 =
        ([⟨"Service record updated.", "success"⟩], Page.redirectTo "view_services")) ∧
    (delete_car s id).2 = ([⟨"Car deleted.", "info"⟩], Page.redirectTo "view_cars") ∧
    (delete_customer s id).2 =
      ([⟨"Customer deleted.", "info"⟩], Page.redirectTo "view_customers") ∧
    (delete_booking s id).2 =
      ([⟨"Booking deleted.", "info"⟩], Page.redirectTo "view_bookings") ∧
    (delete_service s id).2 =
      ([⟨"Service record deleted.", "info"⟩], Page.redirectTo "view_services") := by
  refine ⟨?_, ?_, ?_, ?_, fun _ _ _ _ _ _ _ => rfl, fun _ _ _ _ _ => rfl,
    fun _ _ _ _ _ => rfl, fun _ _ _ _ _ => rfl, rfl, rfl, rfl, rfl⟩
  · intro h; simp [edit_car_get, h]
  · intro h; simp [edit_customer_get, h]
  · intro h; simp [edit_booking_get, h]
  · intro h; simp [edit_service_get, h]

/-- C8: login fails identically for an unknown username and for a known
username with a mismatched password: in both cases no session is created,
the same generic `Invalid credentials.` notice is flashed, the login page is
re-rendered, and the two results are literally equal. -/
theorem login_failure_indistinguishable (users : List User) (u p u2 p2 : String)
    (user : User)
    (hu : users.find? (fun x => x.username == u) = none)
    (hu2 : users.find? (fun x => x.username == u2) = some user)
    (hp : check_password_hash user.password_hash p2 = false) :
    login_post users u p = login_post users u2 p2 ∧
    (login_post users u p).sess = none ∧
    (login_post users u p).flashes = [⟨"Invalid credentials.", "danger"⟩] ∧
    (login_post users u p).page = Page.render "login.html" := by
  unfold login_post
  rw [hu, hu2]
  simp [hp]

/-- A store whose users table already holds the default username is left
unchanged by `init_db`. -/
theorem init_db_of_found (t : Store) (v : User)
    (h : t.users.find? (fun u => u.username == ADMIN_DEFAULT_USERNAME) = some v) :
    init_db t = t := by
  unfold init_db; rw [h]

/-- C9 amended: `init_db` is idempotent; the seed admin row is inserted
exactly when no user with the default username exists — in particular when
the users table is empty, after which exactly the one seeded admin account
with the default username and password exists — and a store already
containing the default username is left entirely unchanged. -/
theorem init_db_amended_spec (s : Store) :
    init_db (init_db s) = init_db s ∧
    (s.users.find? (fun u => u.username == ADMIN_DEFAULT_USERNAME) = none →
      (init_db s).users = s.users ++
        [{ id := s.next_user_id, username := ADMIN_DEFAULT_USERNAME,
           password_hash := generate_password_hash ADMIN_DEFAULT_PASSWORD,
           role := "admin" }]) ∧
    ((s.users.find? (fun u => u.username == ADMIN_DEFAULT_USERNAME)).isSome →
      init_db s = s) ∧
    (s.users = [] →
      (init_db s).users =
        [{ id := s.next_user_id, username := ADMIN_DEFAULT_USERNAME,
           password_hash := generate_password_hash ADMIN_DEFAULT_PASSWORD,
           role := "admin" }]) := by
  cases hfind : s.users.find? (fun u => u.username == ADMIN_DEFAULT_USERNAME) with
  | some u =>
    have hid : init_db s = s := init_db_of_found s u hfind
    refine ⟨by rw [hid, hid], ?_, fun _ => hid, ?_⟩
    · intro h; exact absurd h (by simp)
    · intro h; rw [h] at hfind; simp at hfind
  | none =>
    have hins : init_db s = { s with
        users := s.users ++
          [{ id := s.next_user_id, username := ADMIN_DEFAULT_USERNAME,
             password_hash := generate_password_hash ADMIN_DEFAULT_PASSWORD,
             role := "admin" }],
        next_user_id := s.next_user_id + 1 } := by
      unfold init_db; rw [hfind]
    have hnew : (init_db s).users.find?
        (fun u => u.username == ADMIN_DEFAULT_USERNAME) =
        some { id := s.next_user_id, username := ADMIN_DEFAULT_USERNAME,
               password_hash := generate_password_hash ADMIN_DEFAULT_PASSWORD,
               role := "admin" } := by
      rw [hins]
      simp only
      rw [find?_append_of_none _ _ _ hfind]
      rfl
    refine ⟨init_db_of_found (init_db s) _ hnew, fun _ => by rw [hins],
      ?_, ?_⟩
    · intro h; simp at h
    · intro h
      rw [hins]
      simp [h]

/-- C10: a booking-edit POST for a booking id absent from the store changes
no booking row, yet when the submitted status is `completed` or `cancelled`
the car named by the submitted car_id is still set to `available`, and the
response is the success notice and the redirect to the booking list. -/
theorem edit_booking_missing_id_spec (s : Store) (id cid cuid : Nat)
    (sd ed : Int) (st : String) (c : Car)
    (hb : findBooking s id = none)
    (hst : st = "completed" ∨ st = "cancelled")
    (hc : findCar s cid = some c) :
    (edit_booking_post s id cid cuid sd ed st).1.bookings = s.bookings ∧
    findCar (edit_booking_post s id cid cuid sd ed st).1 cid =
      some { c with status := "available" } ∧
    (edit_booking_post s id cid cuid sd ed st).2 =
      ([⟨"Booking updated.", "success"⟩], Page.redirectTo "view_bookings") := by
  have hbool : (st == "completed" || st == "cancelled") = true := by
    rcases hst with h | h <;> simp [h]
  unfold findBooking at hb
  have hmap : ∀ g : Booking → Booking,
      s.bookings.map (fun b => if b.id == id then g b else b) = s.bookings :=
    fun g => map_ite_eq_self (fun b => b.id == id) g s.bookings hb
  refine ⟨?_, ?_, rfl⟩
  · unfold edit_booking_post
    simp only [hbool, if_pos]
    unfold setCarStatus
    simp only
    exact hmap _
  · unfold edit_booking_post
    simp only [hbool, if_pos]
    unfold setCarStatus findCar at *
    simp only
    rw [find?_setStatus, hc]
    rfl

/-- An empty store, as right after schema creation on a fresh database. -/
def emptyStore : Store :=
  { users := [], cars := [], customers := [], bookings := [], services := [],
    next_user_id := 1, next_car_id := 1, next_customer_id := 1,
    next_booking_id := 1, next_service_id := 1 }

/-- A car currently in maintenance. -/
def carSwift : Car :=
  { id := 1, name := "Swift", brand := "Suzuki", model := "VXi",
    year := some 2020, price_per_day := 50, status := "maintenance",
    description := "demo car" }

/-- A car currently rented out. -/
def carRented : Car := { carSwift with id := 2, status := "rented" }

/-- A customer. -/
def custAda : Customer :=
  { id := 1, name := "Ada", email := "ada@example.com", phone := "111",
    license_no := "L-1", address := "1 Main St" }

/-- An active booking of `carSwift` by `custAda`. -/
def bookingOne : Booking :=
  { id := 1, car_id := 1, customer_id := 1, start_date := 0, end_date := 2,
    total_cost := 150, status := "active" }

/-- A service record for `carSwift`. -/
def serviceOne : Service :=
  { id := 1, car_id := 1, service_date := some 5, service_type := "tyre",
    cost := 30, remarks := "done" }

/-- A populated store used to evaluate the handlers on concrete data. -/
def demoStore : Store :=
  { users := [], cars := [carSwift, carRented], customers := [custAda],
    bookings := [bookingOne], services := [serviceOne],
    next_user_id := 1, next_car_id := 3, next_customer_id := 2,
    next_booking_id := 2, next_service_id := 2 }

/-- Witness for C2: booking the currently rented car 2 appends the active
booking and leaves the car `rented`, with the cost taken from its price. -/
theorem add_booking_post_spec_witness :
    (add_booking_post demoStore 2 1 0 2).1.bookings =
      demoStore.bookings ++
        [{ id := demoStore.next_booking_id, car_id := 2, customer_id := 1,
           start_date := 0, end_date := 2,
           total_cost := calc_total_cost carRented.price_per_day 0 2,
           status := "active" }] ∧
    findCar (add_booking_post demoStore 2 1 0 2).1 2 =
      some { carRented with status := "rented" } :=
  add_booking_post_spec demoStore 2 1 0 2 carRented rfl

/-- Witness for C3: completing booking 1 sets car 1 to `available`, and so
does deleting booking 1. -/
theorem booking_close_sets_car_available_witness :
    findCar (edit_booking_post demoStore 1 1 1 0 2 "completed").1 1 =
      some { carSwift with status := "available" } ∧
    findCar (delete_booking demoStore 1).1 carSwift.id =
      some { carSwift with status := "available" } :=
  booking_close_sets_car_available demoStore 1 1 1 0 2 "completed" carSwift
    (Or.inl rfl) rfl bookingOne rfl carSwift rfl

/-- Witness for C4: servicing the currently rented car 2 appends the service
row and overwrites the car's status with `maintenance`. -/
theorem add_service_post_spec_witness :
    (add_service_post demoStore 2 (some 10) "oil change" 20 "ok").1.services =
      demoStore.services ++
        [{ id := demoStore.next_service_id, car_id := 2,
           service_date := some 10, service_type := "oil change", cost := 20,
           remarks := "ok" }] ∧
    findCar (add_service_post demoStore 2 (some 10) "oil change" 20 "ok").1 2 =
      some { carRented with status := "maintenance" } :=
  add_service_post_spec demoStore 2 (some 10) "oil change" 20 "ok" carRented rfl

/-- Witness for C5: editing or deleting service id 9 (absent) leaves
`serviceOne` in place. -/
theorem service_edit_delete_frame_witness :
    serviceOne ∈ (edit_service_post demoStore 9 2 none "wash" 0 "").1.services ∧
    (serviceOne ∈ (delete_service demoStore 9).1.services ↔
      serviceOne ∈ demoStore.services ∧ serviceOne.id ≠ 9) :=
  ⟨(service_edit_delete_frame demoStore 9 2 none "wash" 0 "").2.2.2.2.1
      serviceOne (by simp [demoStore]) (by decide),
    (service_edit_delete_frame demoStore 9 2 none "wash" 0 "").2.2.2.2.2.2.2.2.2
      serviceOne⟩

/-- Witness for C6: deleting car 1 from the populated store removes exactly
the car, the booking and the service that reference id 1. -/
theorem cascade_delete_spec_witness :
    (carSwift ∈ (delete_car demoStore 1).1.cars ↔
      carSwift ∈ demoStore.cars ∧ carSwift.id ≠ 1) ∧
    (bookingOne ∈ (delete_car demoStore 1).1.bookings ↔
      bookingOne ∈ demoStore.bookings ∧ bookingOne.car_id ≠ 1) ∧
    (serviceOne ∈ (delete_car demoStore 1).1.services ↔
      serviceOne ∈ demoStore.services ∧ serviceOne.car_id ≠ 1) :=
  ⟨(cascade_delete_spec demoStore 1 1).1 carSwift,
   (cascade_delete_spec demoStore 1 1).2.1 bookingOne,
   (cascade_delete_spec demoStore 1 1).2.2.1 serviceOne⟩

/-- Witness for C7: editing car id 1 in an empty store flashes the
not-found notice and redirects to the car list. -/
theorem notfound_edit_delete_spec_witness :
    edit_car_get emptyStore 1 =
      ([⟨"Car not found.", "danger"⟩], Page.redirectTo "view_cars") :=
  (notfound_edit_delete_spec emptyStore 1).1 rfl

/-- The seeded admin user row. -/
def adminUser : User :=
  { id := 1, username := "admin",
    password_hash := generate_password_hash "admin123", role := "admin" }

/-- Witness for C8: an unknown username and the known admin username with a
wrong password produce literally the same failed login result. -/
theorem login_failure_indistinguishable_witness :
    login_post [adminUser] "mallory" "pw" = login_post [adminUser] "admin" "wrong" ∧
    (login_post [adminUser] "mallory" "pw").sess = none ∧
    (login_post [adminUser] "mallory" "pw").flashes =
      [⟨"Invalid credentials.", "danger"⟩] ∧
    (login_post [adminUser] "mallory" "pw").page = Page.render "login.html" :=
  login_failure_indistinguishable [adminUser] "mallory" "pw" "admin" "wrong"
    adminUser rfl rfl rfl

/-- A user row whose username is not the default one. -/
def userBob : User :=
  { id := 1, username := "bob",
    password_hash := generate_password_hash "hunter2", role := "admin" }

/-- A store whose users table is non-empty but holds no default-username
row. -/
def storeBob : Store := { emptyStore with users := [userBob], next_user_id := 2 }

/-- C9 counterexample: on a non-empty users table holding only the user
`bob`, `init_db` inserts a row, refuting both "the seed admin account is
created exactly when the users table is empty" and "running initialization
again on a non-empty users table inserts nothing". -/
theorem init_db_nonempty_insertion :
    storeBob.users ≠ [] ∧
    (init_db storeBob).users.length = storeBob.users.length + 1 := by
  refine ⟨?_, rfl⟩
  intro h
  simp [storeBob, emptyStore] at h

/-- Witness for the amended C9: initializing an empty store seeds exactly
the one admin account with the default username and password. -/
theorem init_db_amended_spec_witness :
    (init_db emptyStore).users =
      [{ id := emptyStore.next_user_id, username := ADMIN_DEFAULT_USERNAME,
         password_hash := generate_password_hash ADMIN_DEFAULT_PASSWORD,
         role := "admin" }] :=
  (init_db_amended_spec emptyStore).2.2.2 rfl

/-- Witness for C10: a booking-edit POST at the absent booking id 99 with
status `cancelled` leaves the bookings table unchanged, still sets car 1 to
`available`, and answers with the success notice and redirect. -/
theorem edit_booking_missing_id_spec_witness :
    (edit_booking_post demoStore 99 1 1 0 2 "cancelled").1.bookings =
      demoStore.bookings ∧
    findCar (edit_booking_post demoStore 99 1 1 0 2 "cancelled").1 1 =
      some { carSwift with status := "available" } ∧
    (edit_booking_post demoStore 99 1 1 0 2 "cancelled").2 =
      ([⟨"Booking updated.", "success"⟩], Page.redirectTo "view_bookings") :=
  edit_booking_missing_id_spec demoStore 99 1 1 0 2 "cancelled" carSwift rfl
    (Or.inr rfl) rfl
